import Mathlib

/-!
Verification of the generation engine of a zsh-plugin scaffolding tool.

The definitions below are a shallow embedding of the Rust sources:
`src/name.rs` (identifier validation), `src/cli.rs` (the `InitCommand`
options record and its `normalize` preset resolution), `src/error.rs`
(the error enumeration), and `src/templates.rs` (the template context
builder, the context accessors, and the generation orchestrator
`init_new_plugin` together with its step primitives `make_directory`,
`make_repository` and `render_template`).  The filesystem is modelled
as an association list from paths (component lists) to nodes; external
collaborators (the template-substitution engine and the
version-control initialization capability) are passed in as explicit
parameters, mirroring the interface boundary of the spec.
-/

namespace ZshPlugin

-- ------------------------------------------------------------------
-- Character classes (Rust `char::is_ascii_alphabetic` etc.)
-- ------------------------------------------------------------------

/-- Rust `char::is_ascii_alphabetic`: `A`-`Z` or `a`-`z`. -/
def isAsciiAlphabetic (c : Char) : Bool :=
  ('A' ≤ c && c ≤ 'Z') || ('a' ≤ c && c ≤ 'z')

/-- Rust `char::is_ascii_alphanumeric`: an ASCII letter or digit. -/
def isAsciiAlphanumeric (c : Char) : Bool :=
  isAsciiAlphabetic c || ('0' ≤ c && c ≤ '9')

/-- Rust `char::to_ascii_uppercase`. -/
def toAsciiUppercaseChar (c : Char) : Char :=
  if 'a' ≤ c && c ≤ 'z' then Char.ofNat (c.toNat - 32) else c

/-- Rust `str::to_ascii_uppercase` (`src/templates.rs`, context builder):
upper-case each character. -/
def toAsciiUppercase (s : String) : String :=
  ⟨s.data.map toAsciiUppercaseChar⟩

/-- Rust `String::replace('-', "_")` (`src/templates.rs`, context builder);
for a single-character pattern and replacement this is a character map. -/
def replaceDashUnderscore (s : String) : String :=
  ⟨s.data.map (fun c => if c = '-' then '_' else c)⟩

-- ------------------------------------------------------------------
-- `src/name.rs`: validated plugin names
-- ------------------------------------------------------------------

/-- The kind of a name-validation failure (`NameErrorKind` in `src/name.rs`). -/
inductive NameErrorKind where
  | Empty
  | InvalidInitialChar
  | InvalidChar
deriving DecidableEq, Repr

/-- A validated plugin name (`Name` in `src/name.rs`), a newtype over the
original string. -/
structure Name where
  val : String
deriving DecidableEq, Repr

/-- A path, modelled as its list of components. -/
abbrev Path := List String

/-- The crate error enumeration (`Error` in `src/error.rs`); `FlatError`
payloads are modelled by their message strings. -/
inductive Error where
  | IoError (source : String)
  | EnvFilterError (source : String)
  | SetGlobalError (source : String)
  | InvalidNameError (kind : NameErrorKind)
  | TemplateError (source : String)
  | GitInitError (source : String)
  | TargetExistsError (path : Path)
  | MultipleErrors (sources : List Error)
  | Unknown (message : String)

/-- `impl FromStr for Name` (`src/name.rs` lines 92-109): first the empty
check, then the initial-character check, then the check that every
remaining character is ASCII alphanumeric, `-` or `_`. -/
def Name.fromStr (s : String) : Except Error Name :=
  match s.toList with
  | [] => Except.error (Error.InvalidNameError NameErrorKind.Empty)
  | first :: rest =>
    if !isAsciiAlphabetic first then
      Except.error (Error.InvalidNameError NameErrorKind.InvalidInitialChar)
    else if !(rest.all fun c => isAsciiAlphanumeric c || c == '-' || c == '_') then
      Except.error (Error.InvalidNameError NameErrorKind.InvalidChar)
    else
      Except.ok { val := s }

-- ------------------------------------------------------------------
-- `src/cli.rs`: the `InitCommand` options record and preset resolution
-- ------------------------------------------------------------------

/-- The preset selector (`Template` in `src/cli.rs`). -/
inductive Template where
  | Minimal
  | Simple
  | Complete
deriving DecidableEq, Repr

/-- The `InitCommand` options record (`src/cli.rs` lines 72-158), with the
fields in source order. -/
structure InitCommand where
  force : Bool
  template : Option Template
  add_bin_dir : Bool
  add_bash_wrapper : Bool
  no_aliases : Bool
  no_shell_check : Bool
  no_functions_dir : Bool
  no_git_init : Bool
  no_github_dir : Bool
  no_readme : Bool
  no_shell_spec : Bool
  gihub_user : String
  use_zplugins : Bool
  description : Option String
  name : Name
deriving DecidableEq, Repr

/-- `InitCommand::normalize` (`src/cli.rs` lines 299-335).  Note that the
source matches `Some(Template::Complete) | None` in a single arm, so the
no-preset case assigns the Complete row as well. -/
def InitCommand.normalize (self : InitCommand) : InitCommand :=
  match self.template with
  | some Template.Minimal =>
    { self with
      add_bin_dir := false
      add_bash_wrapper := false
      no_aliases := true
      no_functions_dir := true
      no_github_dir := true
      no_git_init := false
      no_readme := true
      no_shell_check := true
      no_shell_spec := true }
  | some Template.Simple =>
    { self with
      add_bin_dir := false
      add_bash_wrapper := false
      no_aliases := false
      no_functions_dir := true
      no_github_dir := true
      no_git_init := false
      no_readme := false
      no_shell_check := false
      no_shell_spec := false }
  | some Template.Complete | none =>
    { self with
      add_bin_dir := true
      add_bash_wrapper := true
      no_aliases := false
      no_functions_dir := false
      no_github_dir := false
      no_git_init := false
      no_readme := false
      no_shell_check := false
      no_shell_spec := false }

-- ------------------------------------------------------------------
-- `src/templates.rs`: template context (tera `Context` modelled as an
-- insertion-ordered association list; a later insert shadows earlier
-- entries with the same key, matching tera's overwrite semantics)
-- ------------------------------------------------------------------

/-- A context value: tera serializes the inserted Rust values as JSON
strings or booleans. -/
inductive TValue where
  | str (s : String)
  | bool (b : Bool)
deriving DecidableEq, Repr

/-- The template context (tera `Context`). -/
abbrev Context := List (String × TValue)

/-- `Context::insert`: a later insert shadows any earlier entry with the
same key (lookup scans most-recent first). -/
def ctxInsert (ctx : Context) (key : String) (v : TValue) : Context :=
  (key, v) :: ctx

/-- `Context::get`. -/
def ctxGet : Context → String → Option TValue
  | [], _ => none
  | e :: rest, key => if e.1 = key then some e.2 else ctxGet rest key

def V_GITHUB_USER : String := "github_user"
def V_PLUGIN_DISPLAY_NAME : String := "plugin_display_name"
def V_PLUGIN_NAME : String := "plugin_name"
def V_PLUGIN_VAR : String := "plugin_var"
def V_SHORT_DESCRIPTION : String := "short_description"

def O_INCLUDE_ALIASES : String := "include_aliases"
def O_INCLUDE_BASH_WRAPPER : String := "include_bash_wrapper"
def O_INCLUDE_BIN_DIR : String := "include_bin_dir"
def O_INCLUDE_FUNCTIONS_DIR : String := "include_functions_dir"
def O_INCLUDE_GIT_INIT : String := "include_git_init"
def O_INCLUDE_GITHUB_DIR : String := "include_github_dir"
def O_INCLUDE_README : String := "include_readme"
def O_INCLUDE_SHELL_CHECK : String := "include_shell_check"
def O_INCLUDE_SHELL_SPEC : String := "include_shell_spec"
def O_USE_ZPLUGINS : String := "use_zplugins"

def P_BIN_DIR : String := "bin"
def P_DOT_GITIGNORE : String := ".gitignore"
def P_DOT_KEEP : String := ".gitkeep"
def P_FUNCTIONS_DIR : String := "functions"
def P_GITHUB_DIR : String := ".github"
def P_MAKEFILE : String := "Makefile"
def P_README : String := "README.md"
def P_SHELL_YML : String := "shell.yml"
def P_WORKFLOWS_DIR : String := "workflows"

/-- `ctx_get_str` (`src/templates.rs` lines 15-21). -/
def ctx_get_str (ctx : Context) (key : String) : Except Error String :=
  match ctxGet ctx key with
  | some (TValue.str s) => Except.ok s
  | _ => Except.error (Error.Unknown ("Missing or invalid context key: " ++ key))

/-- `ctx_get_bool` (`src/templates.rs` lines 23-29). -/
def ctx_get_bool (ctx : Context) (key : String) : Except Error Bool :=
  match ctxGet ctx key with
  | some (TValue.bool b) => Except.ok b
  | _ => Except.error (Error.Unknown ("Missing or invalid context key: " ++ key))

/-- `impl From<InitCommand> for Context` (`src/templates.rs` lines 262-291),
with the inserts in source order. -/
def contextFrom (cmd : InitCommand) : Context :=
  let ctx : Context := []
  let ctx := ctxInsert ctx O_INCLUDE_ALIASES (TValue.bool (!cmd.no_aliases))
  let ctx := ctxInsert ctx O_INCLUDE_BASH_WRAPPER (TValue.bool cmd.add_bash_wrapper)
  let ctx := ctxInsert ctx O_INCLUDE_BIN_DIR (TValue.bool cmd.add_bin_dir)
  let ctx := ctxInsert ctx O_INCLUDE_FUNCTIONS_DIR (TValue.bool (!cmd.no_functions_dir))
  let ctx := ctxInsert ctx O_INCLUDE_GITHUB_DIR (TValue.bool (!cmd.no_github_dir))
  let ctx := ctxInsert ctx O_INCLUDE_GIT_INIT (TValue.bool (!cmd.no_git_init))
  let ctx := ctxInsert ctx O_INCLUDE_README (TValue.bool (!cmd.no_readme))
  let ctx := ctxInsert ctx O_INCLUDE_SHELL_CHECK (TValue.bool (!cmd.no_shell_check))
  let ctx := ctxInsert ctx O_INCLUDE_SHELL_SPEC (TValue.bool (!cmd.no_shell_spec))
  let ctx := ctxInsert ctx O_USE_ZPLUGINS (TValue.bool cmd.use_zplugins)
  let ctx :=
    match cmd.description with
    | some description => ctxInsert ctx V_SHORT_DESCRIPTION (TValue.str description)
    | none => ctxInsert ctx V_SHORT_DESCRIPTION (TValue.str "Zsh plugin to do something...")
  let display_name := cmd.name.val
  let plugin_name := replaceDashUnderscore display_name
  let plugin_var := toAsciiUppercase plugin_name
  let ctx := ctxInsert ctx V_PLUGIN_DISPLAY_NAME (TValue.str display_name)
  let ctx := ctxInsert ctx V_PLUGIN_NAME (TValue.str plugin_name)
  let ctx := ctxInsert ctx V_PLUGIN_VAR (TValue.str plugin_var)
  let ctx := ctxInsert ctx V_GITHUB_USER (TValue.str cmd.gihub_user)
  let ctx := ctxInsert ctx "_shv_start" (TValue.str "$\x7b")
  let ctx := ctxInsert ctx "_shv_end" (TValue.str "\x7d")
  ctx

-- ------------------------------------------------------------------
-- Filesystem model
-- ------------------------------------------------------------------

/-- A filesystem node: a directory, or a regular file with its content. -/
inductive FsNode where
  | dir
  | file (content : String)
deriving DecidableEq, Repr

/-- The filesystem, as an association list from paths to nodes; the most
recent write for a path shadows older entries. -/
structure FileSys where
  entries : List (Path × FsNode)
deriving DecidableEq, Repr

def FileSys.empty : FileSys := ⟨[]⟩

/-- First-match lookup over the entry list. -/
def lookupEntries : List (Path × FsNode) → Path → Option FsNode
  | [], _ => none
  | e :: rest, p => if e.1 = p then some e.2 else lookupEntries rest p

def FileSys.lookup (fs : FileSys) (p : Path) : Option FsNode :=
  lookupEntries fs.entries p

/-- `Path::exists`. -/
def FileSys.pathExists (fs : FileSys) (p : Path) : Bool :=
  (fs.lookup p).isSome

/-- `Path::is_dir`. -/
def FileSys.isDir (fs : FileSys) (p : Path) : Bool :=
  match fs.lookup p with
  | some FsNode.dir => true
  | _ => false

/-- `Path::is_file`. -/
def FileSys.isFile (fs : FileSys) (p : Path) : Bool :=
  match fs.lookup p with
  | some (FsNode.file _) => true
  | _ => false

/-- Record a node for a path (the new entry shadows any older one). -/
def FileSys.set (fs : FileSys) (p : Path) (n : FsNode) : FileSys :=
  ⟨(p, n) :: fs.entries⟩

/-- `std::fs::write`: create or replace the file at `p`. -/
def FileSys.write (fs : FileSys) (p : Path) (content : String) : FileSys :=
  fs.set p (FsNode.file content)

/-- Helper for `create_dir_all`: create each prefix of the remaining
components in order. -/
def mkdirGo : FileSys → Path → Path → FileSys
  | fs, _, [] => fs
  | fs, pre, c :: rest => mkdirGo (fs.set (pre ++ [c]) FsNode.dir) (pre ++ [c]) rest

/-- `std::fs::create_dir_all`: create the directory and all of its missing
ancestors. -/
def FileSys.mkdirAll (fs : FileSys) (p : Path) : FileSys :=
  mkdirGo fs [] p

-- ------------------------------------------------------------------
-- `src/templates.rs`: step primitives
-- ------------------------------------------------------------------

/-- The template-substitution engine (tera `render_str`): from a template
body and a context to rendered text or an engine error message.  An
external collaborator, passed in explicitly. -/
abbrev RenderEngine := String → Context → Except String String

/-- `make_directory` (`src/templates.rs` lines 214-227). -/
def make_directory (path : Path) (force : Bool) (fs : FileSys) : Except Error FileSys :=
  if !(fs.pathExists path) || (fs.isDir path && force) then
    Except.ok (fs.mkdirAll path)
  else
    Except.error (Error.TargetExistsError path)

/-- `make_repository` (`src/templates.rs` lines 194-212).  The
version-control capability is the explicit `gitInit` argument; its
filesystem effect is modelled from the spec ("initialize version control
at root", an opaque collaborator) as creating the `.git` directory that
the function's own existence check inspects. -/
def make_repository (path : Path) (force : Bool) (gitInit : Except String Unit)
    (fs : FileSys) : Except Error FileSys :=
  let repo_dir := path ++ [".git"]
  if !(fs.pathExists repo_dir) || (fs.isDir repo_dir && force) then
    match gitInit with
    | Except.error e => Except.error (Error.GitInitError e)
    | Except.ok _ => Except.ok (fs.mkdirAll repo_dir)
  else
    Except.error (Error.TargetExistsError repo_dir)

/-- `render_template` (`src/templates.rs` lines 229-256). -/
def render_template (rendr : RenderEngine) (ctx : Context) (template : String)
    (file_path : Path) (force : Bool) (fs : FileSys) : Except Error FileSys :=
  if !(fs.pathExists file_path) || (fs.isFile file_path && force) then
    match rendr template ctx with
    | Except.ok content => Except.ok (fs.write file_path content)
    | Except.error e => Except.error (Error.TemplateError e)
  else
    Except.error (Error.TargetExistsError file_path)

-- ------------------------------------------------------------------
-- The generation monad: state passing over the filesystem with
-- fail-fast errors that keep the state reached so far (the orchestrator
-- performs no rollback)
-- ------------------------------------------------------------------

def GenM (α : Type) : Type := FileSys → FileSys × Except Error α

def pureG {α : Type} (a : α) : GenM α := fun fs => (fs, Except.ok a)

/-- Sequencing with the semantics of Rust `?`: the first error aborts the
rest, keeping the filesystem state already reached. -/
def bindG {α β : Type} (m : GenM α) (k : α → GenM β) : GenM β := fun fs =>
  match m fs with
  | (fs', Except.ok a) => k a fs'
  | (fs', Except.error e) => (fs', Except.error e)

/-- Lift a filesystem step; on error the filesystem is unchanged. -/
def liftFs (f : FileSys → Except Error FileSys) : GenM Unit := fun fs =>
  match f fs with
  | Except.ok fs' => (fs', Except.ok ())
  | Except.error e => (fs, Except.error e)

/-- Lift a pure fallible computation (the context accessors). -/
def liftRes {α : Type} (r : Except Error α) : GenM α := fun fs =>
  match r with
  | Except.ok a => (fs, Except.ok a)
  | Except.error e => (fs, Except.error e)

/-- The process exit code returned by the orchestrator. -/
inductive ExitCode where
  | SUCCESS
  | FAILURE
deriving DecidableEq, Repr

-- ------------------------------------------------------------------
-- Template bodies.  The nine template files under `src/templates/` are
-- included with `include_str!` and are not part of the specified core.
-- Modelled from the spec: "nine fixed, named template strings ...
-- supplied as static, read-only constants" whose bodies are opaque; they
-- are represented here by distinct placeholder literals and only ever
-- passed to the render engine.
-- ------------------------------------------------------------------

def T_BIN_DIR_KEEP : String := "templates/bin/.keep"
def T_FUNCTIONS_EXAMPLE : String := "templates/functions/name_example"
def T_GIT_IGNORE : String := "templates/.gitignore"
def T_GITHUB_WORFLOW_SHELL : String := "templates/.github/workflows/shell.yml"
def T_MAKEFILE : String := "templates/Makefile"
def T_PLUGIN_SOURCE : String := "templates/name.plugin.zsh"
def T_PLUGIN_SOURCE_ZPLUGINS : String := "templates/name.zplugins.zsh"
def T_PLUGIN_WRAPPER : String := "templates/name.bash"
def T_README : String := "templates/README.md"

/-- `init_new_plugin` (`src/templates.rs` lines 71-174): the generation
orchestrator.  Steps appear in source order; every fallible call is
sequenced with `bindG`, mirroring Rust `?`. -/
def init_new_plugin (ctx : Context) (force : Bool) (rendr : RenderEngine)
    (gitInit : Except String Unit) : GenM ExitCode :=
  bindG (liftRes (ctx_get_str ctx V_PLUGIN_NAME)) (fun plugin_name =>
  let target_root : Path := ["zsh-" ++ plugin_name ++ "-plugin"]
  bindG (liftFs (make_directory target_root force)) (fun _ =>
  bindG (liftRes (ctx_get_bool ctx O_INCLUDE_GIT_INIT)) (fun git_init =>
  bindG (if git_init then
      bindG (liftFs (make_repository target_root force gitInit)) (fun _ =>
      liftFs (render_template rendr ctx T_GIT_IGNORE
        (target_root ++ [P_DOT_GITIGNORE]) force))
    else pureG ()) (fun _ =>
  bindG (liftRes (ctx_get_bool ctx O_INCLUDE_GITHUB_DIR)) (fun github_dir =>
  bindG (if github_dir then
      let github := target_root ++ [P_GITHUB_DIR]
      bindG (liftFs (make_directory github force)) (fun _ =>
      let workflows := github ++ [P_WORKFLOWS_DIR]
      bindG (liftFs (make_directory workflows force)) (fun _ =>
      liftFs (render_template rendr ctx T_GITHUB_WORFLOW_SHELL
        (workflows ++ [P_SHELL_YML]) force)))
    else pureG ()) (fun _ =>
  bindG (liftRes (ctx_get_bool ctx O_INCLUDE_BIN_DIR)) (fun bin_dir =>
  bindG (if bin_dir then
      let bindir := target_root ++ [P_BIN_DIR]
      bindG (liftFs (make_directory bindir force)) (fun _ =>
      liftFs (render_template rendr ctx T_BIN_DIR_KEEP
        (bindir ++ [P_DOT_KEEP]) force))
    else pureG ()) (fun _ =>
  bindG (liftRes (ctx_get_bool ctx O_INCLUDE_FUNCTIONS_DIR)) (fun functions_dir =>
  bindG (if functions_dir then
      let functions := target_root ++ [P_FUNCTIONS_DIR]
      bindG (liftFs (make_directory functions force)) (fun _ =>
      liftFs (render_template rendr ctx T_FUNCTIONS_EXAMPLE
        (functions ++ [plugin_name ++ "_example"]) force))
    else pureG ()) (fun _ =>
  bindG (liftRes (ctx_get_bool ctx O_INCLUDE_SHELL_CHECK)) (fun shell_check =>
  bindG (if shell_check then pureG true
    else liftRes (ctx_get_bool ctx O_INCLUDE_SHELL_SPEC)) (fun check_or_spec =>
  bindG (if check_or_spec then
      liftFs (render_template rendr ctx T_MAKEFILE
        (target_root ++ [P_MAKEFILE]) force)
    else pureG ()) (fun _ =>
  bindG (liftRes (ctx_get_bool ctx O_INCLUDE_BASH_WRAPPER)) (fun bash_wrapper =>
  bindG (if bash_wrapper then
      liftFs (render_template rendr ctx T_PLUGIN_WRAPPER
        (target_root ++ [plugin_name ++ ".bash"]) force)
    else pureG ()) (fun _ =>
  bindG (liftRes (ctx_get_bool ctx O_INCLUDE_README)) (fun readme =>
  bindG (if readme then
      liftFs (render_template rendr ctx T_README
        (target_root ++ [P_README]) force)
    else pureG ()) (fun _ =>
  bindG (liftRes (ctx_get_bool ctx O_USE_ZPLUGINS)) (fun use_zplugins =>
  let template := if use_zplugins then T_PLUGIN_SOURCE_ZPLUGINS else T_PLUGIN_SOURCE
  bindG (liftFs (render_template rendr ctx template
    (target_root ++ [plugin_name ++ ".plugin.zsh"]) force)) (fun _ =>
  pureG ExitCode.SUCCESS)))))))))))))))))))

-- ------------------------------------------------------------------
-- Sample inputs shared by witnesses
-- ------------------------------------------------------------------

/-- A concrete options record used as input by several witnesses: no preset,
every negating toggle set, both additive toggles unset. -/
def sampleCmd : InitCommand :=
  { force := false, template := none, add_bin_dir := false,
    add_bash_wrapper := false, no_aliases := true, no_shell_check := true,
    no_functions_dir := true, no_git_init := true, no_github_dir := true,
    no_readme := true, no_shell_spec := true, gihub_user := "user",
    use_zplugins := false, description := none, name := { val := "my-plugin" } }

-- ------------------------------------------------------------------
-- Claim theorems
-- ------------------------------------------------------------------

/-- Claim C1 (code evaluation at the failing input): with no preset
(`template = none`) and explicit toggles `no_readme`, `no_git_init` set and
`add_bin_dir` unset, `InitCommand::normalize` does not act as the identity
on the toggles: its `Some(Template::Complete) | None` match arm overwrites
every toggle with the Complete row, so `no_readme` and `no_git_init` come
out `false` and `add_bin_dir` comes out `true`. -/
theorem c1_normalize_none_overwrites_toggles :
    sampleCmd.template = none ∧
    sampleCmd.no_readme = true ∧
    sampleCmd.no_git_init = true ∧
    sampleCmd.add_bin_dir = false ∧
    sampleCmd.normalize.no_readme = false ∧
    sampleCmd.normalize.no_git_init = false ∧
    sampleCmd.normalize.add_bin_dir = true :=
  ⟨rfl, rfl, rfl, rfl, rfl, rfl, rfl⟩

/-- Claim C2: for every string `s`, parsing `s` as a plugin `Name` succeeds
iff `s` is non-empty, its first character is an ASCII letter, and every
remaining character is ASCII alphanumeric, `-` or `_`; on success the
`Name` wraps the original string unchanged; on failure the kind is
`Empty` for the empty string, `InvalidInitialChar` for a bad first
character, and `InvalidChar` for a bad later character. -/
theorem c2_name_validation (s : String) :
    (Name.fromStr s = Except.ok { val := s } ↔
      (s.toList ≠ [] ∧ isAsciiAlphabetic (s.toList.headD 'a') = true ∧
        (s.toList.tail.all fun c => isAsciiAlphanumeric c || c == '-' || c == '_') = true)) ∧
    (∀ n, Name.fromStr s = Except.ok n → n = { val := s }) ∧
    (Name.fromStr s = Except.error (Error.InvalidNameError NameErrorKind.Empty) ↔
      s.toList = []) ∧
    (Name.fromStr s = Except.error (Error.InvalidNameError NameErrorKind.InvalidInitialChar) ↔
      (s.toList ≠ [] ∧ isAsciiAlphabetic (s.toList.headD 'a') = false)) ∧
    (Name.fromStr s = Except.error (Error.InvalidNameError NameErrorKind.InvalidChar) ↔
      (s.toList ≠ [] ∧ isAsciiAlphabetic (s.toList.headD 'a') = true ∧
        (s.toList.tail.all fun c => isAsciiAlphanumeric c || c == '-' || c == '_') = false)) := by
  rcases hd : s.data with _ | ⟨c, cs⟩
  · simp only [Name.fromStr, String.toList, hd]
    simp
  · by_cases h1 : isAsciiAlphabetic c
    · by_cases h2 : (cs.all fun ch => isAsciiAlphanumeric ch || ch == '-' || ch == '_')
      · simp only [Name.fromStr, String.toList, hd, h1, h2, Bool.not_true, if_false,
          Bool.false_eq_true, if_true, List.headD_cons, List.tail_cons]
        simp [h1, h2]
      · simp only [Name.fromStr, String.toList, hd, h1, Bool.not_true,
          Bool.false_eq_true, List.headD_cons, List.tail_cons]
        simp only [Bool.not_eq_true] at h2
        simp [h1, h2]
    · simp only [Name.fromStr, String.toList, hd, List.headD_cons, List.tail_cons]
      simp only [Bool.not_eq_true] at h1
      simp [h1]

/-- Witness for C2 at the concrete input `"my-plugin"`. -/
theorem c2_name_validation_witness :
    Name.fromStr "my-plugin" = Except.ok { val := "my-plugin" } :=
  (c2_name_validation "my-plugin").1.mpr (by decide)

/-- Claim C3: for every preset and every assignment of the explicit
toggles, `normalize` yields exactly the fixed preset row, regardless of
what the explicit toggles contained — Minimal: only git-init on; Simple:
aliases, git-init, readme, shell-check, shell-spec on; Complete:
everything on. -/
theorem c3_preset_table (cmd : InitCommand) :
    ({ cmd with template := some Template.Minimal } : InitCommand).normalize =
      { cmd with
        template := some Template.Minimal
        add_bin_dir := false, add_bash_wrapper := false, no_aliases := true
        no_functions_dir := true, no_github_dir := true, no_git_init := false
        no_readme := true, no_shell_check := true, no_shell_spec := true } ∧
    ({ cmd with template := some Template.Simple } : InitCommand).normalize =
      { cmd with
        template := some Template.Simple
        add_bin_dir := false, add_bash_wrapper := false, no_aliases := false
        no_functions_dir := true, no_github_dir := true, no_git_init := false
        no_readme := false, no_shell_check := false, no_shell_spec := false } ∧
    ({ cmd with template := some Template.Complete } : InitCommand).normalize =
      { cmd with
        template := some Template.Complete
        add_bin_dir := true, add_bash_wrapper := true, no_aliases := false
        no_functions_dir := false, no_github_dir := false, no_git_init := false
        no_readme := false, no_shell_check := false, no_shell_spec := false } := by
  rcases cmd
  exact ⟨rfl, rfl, rfl⟩

/-- Witness for C3 at a concrete options record: under the Minimal preset,
the explicit `no_readme`-off choice is overridden to on. -/
theorem c3_preset_table_witness :
    ({ sampleCmd with template := some Template.Minimal } : InitCommand).normalize.no_readme
      = true := by
  rw [(c3_preset_table sampleCmd).1]

-- ------------------------------------------------------------------
-- Helper lemmas: the context built by `contextFrom` answers every
-- accessor the orchestrator uses
-- ------------------------------------------------------------------

theorem getBool_aliases (cmd : InitCommand) :
    ctx_get_bool (contextFrom cmd) O_INCLUDE_ALIASES = Except.ok (!cmd.no_aliases) := by
  rcases hd : cmd.description with _ | d <;>
    simp [contextFrom, ctxInsert, ctxGet, ctx_get_bool, hd,
      V_GITHUB_USER, V_PLUGIN_DISPLAY_NAME, V_PLUGIN_NAME, V_PLUGIN_VAR, V_SHORT_DESCRIPTION,
      O_INCLUDE_ALIASES, O_INCLUDE_BASH_WRAPPER, O_INCLUDE_BIN_DIR, O_INCLUDE_FUNCTIONS_DIR,
      O_INCLUDE_GIT_INIT, O_INCLUDE_GITHUB_DIR, O_INCLUDE_README, O_INCLUDE_SHELL_CHECK,
      O_INCLUDE_SHELL_SPEC, O_USE_ZPLUGINS]

theorem getBool_bash_wrapper (cmd : InitCommand) :
    ctx_get_bool (contextFrom cmd) O_INCLUDE_BASH_WRAPPER = Except.ok cmd.add_bash_wrapper := by
  rcases hd : cmd.description with _ | d <;>
    simp [contextFrom, ctxInsert, ctxGet, ctx_get_bool, hd,
      V_GITHUB_USER, V_PLUGIN_DISPLAY_NAME, V_PLUGIN_NAME, V_PLUGIN_VAR, V_SHORT_DESCRIPTION,
      O_INCLUDE_ALIASES, O_INCLUDE_BASH_WRAPPER, O_INCLUDE_BIN_DIR, O_INCLUDE_FUNCTIONS_DIR,
      O_INCLUDE_GIT_INIT, O_INCLUDE_GITHUB_DIR, O_INCLUDE_README, O_INCLUDE_SHELL_CHECK,
      O_INCLUDE_SHELL_SPEC, O_USE_ZPLUGINS]

theorem getBool_bin_dir (cmd : InitCommand) :
    ctx_get_bool (contextFrom cmd) O_INCLUDE_BIN_DIR = Except.ok cmd.add_bin_dir := by
  rcases hd : cmd.description with _ | d <;>
    simp [contextFrom, ctxInsert, ctxGet, ctx_get_bool, hd,
      V_GITHUB_USER, V_PLUGIN_DISPLAY_NAME, V_PLUGIN_NAME, V_PLUGIN_VAR, V_SHORT_DESCRIPTION,
      O_INCLUDE_ALIASES, O_INCLUDE_BASH_WRAPPER, O_INCLUDE_BIN_DIR, O_INCLUDE_FUNCTIONS_DIR,
      O_INCLUDE_GIT_INIT, O_INCLUDE_GITHUB_DIR, O_INCLUDE_README, O_INCLUDE_SHELL_CHECK,
      O_INCLUDE_SHELL_SPEC, O_USE_ZPLUGINS]

theorem getBool_functions_dir (cmd : InitCommand) :
    ctx_get_bool (contextFrom cmd) O_INCLUDE_FUNCTIONS_DIR = Except.ok (!cmd.no_functions_dir) := by
  rcases hd : cmd.description with _ | d <;>
    simp [contextFrom, ctxInsert, ctxGet, ctx_get_bool, hd,
      V_GITHUB_USER, V_PLUGIN_DISPLAY_NAME, V_PLUGIN_NAME, V_PLUGIN_VAR, V_SHORT_DESCRIPTION,
      O_INCLUDE_ALIASES, O_INCLUDE_BASH_WRAPPER, O_INCLUDE_BIN_DIR, O_INCLUDE_FUNCTIONS_DIR,
      O_INCLUDE_GIT_INIT, O_INCLUDE_GITHUB_DIR, O_INCLUDE_README, O_INCLUDE_SHELL_CHECK,
      O_INCLUDE_SHELL_SPEC, O_USE_ZPLUGINS]

theorem getBool_github_dir (cmd : InitCommand) :
    ctx_get_bool (contextFrom cmd) O_INCLUDE_GITHUB_DIR = Except.ok (!cmd.no_github_dir) := by
  rcases hd : cmd.description with _ | d <;>
    simp [contextFrom, ctxInsert, ctxGet, ctx_get_bool, hd,
      V_GITHUB_USER, V_PLUGIN_DISPLAY_NAME, V_PLUGIN_NAME, V_PLUGIN_VAR, V_SHORT_DESCRIPTION,
      O_INCLUDE_ALIASES, O_INCLUDE_BASH_WRAPPER, O_INCLUDE_BIN_DIR, O_INCLUDE_FUNCTIONS_DIR,
      O_INCLUDE_GIT_INIT, O_INCLUDE_GITHUB_DIR, O_INCLUDE_README, O_INCLUDE_SHELL_CHECK,
      O_INCLUDE_SHELL_SPEC, O_USE_ZPLUGINS]

theorem getBool_git_init (cmd : InitCommand) :
    ctx_get_bool (contextFrom cmd) O_INCLUDE_GIT_INIT = Except.ok (!cmd.no_git_init) := by
  rcases hd : cmd.description with _ | d <;>
    simp [contextFrom, ctxInsert, ctxGet, ctx_get_bool, hd,
      V_GITHUB_USER, V_PLUGIN_DISPLAY_NAME, V_PLUGIN_NAME, V_PLUGIN_VAR, V_SHORT_DESCRIPTION,
      O_INCLUDE_ALIASES, O_INCLUDE_BASH_WRAPPER, O_INCLUDE_BIN_DIR, O_INCLUDE_FUNCTIONS_DIR,
      O_INCLUDE_GIT_INIT, O_INCLUDE_GITHUB_DIR, O_INCLUDE_README, O_INCLUDE_SHELL_CHECK,
      O_INCLUDE_SHELL_SPEC, O_USE_ZPLUGINS]

theorem getBool_readme (cmd : InitCommand) :
    ctx_get_bool (contextFrom cmd) O_INCLUDE_README = Except.ok (!cmd.no_readme) := by
  rcases hd : cmd.description with _ | d <;>
    simp [contextFrom, ctxInsert, ctxGet, ctx_get_bool, hd,
      V_GITHUB_USER, V_PLUGIN_DISPLAY_NAME, V_PLUGIN_NAME, V_PLUGIN_VAR, V_SHORT_DESCRIPTION,
      O_INCLUDE_ALIASES, O_INCLUDE_BASH_WRAPPER, O_INCLUDE_BIN_DIR, O_INCLUDE_FUNCTIONS_DIR,
      O_INCLUDE_GIT_INIT, O_INCLUDE_GITHUB_DIR, O_INCLUDE_README, O_INCLUDE_SHELL_CHECK,
      O_INCLUDE_SHELL_SPEC, O_USE_ZPLUGINS]

theorem getBool_shell_check (cmd : InitCommand) :
    ctx_get_bool (contextFrom cmd) O_INCLUDE_SHELL_CHECK = Except.ok (!cmd.no_shell_check) := by
  rcases hd : cmd.description with _ | d <;>
    simp [contextFrom, ctxInsert, ctxGet, ctx_get_bool, hd,
      V_GITHUB_USER, V_PLUGIN_DISPLAY_NAME, V_PLUGIN_NAME, V_PLUGIN_VAR, V_SHORT_DESCRIPTION,
      O_INCLUDE_ALIASES, O_INCLUDE_BASH_WRAPPER, O_INCLUDE_BIN_DIR, O_INCLUDE_FUNCTIONS_DIR,
      O_INCLUDE_GIT_INIT, O_INCLUDE_GITHUB_DIR, O_INCLUDE_README, O_INCLUDE_SHELL_CHECK,
      O_INCLUDE_SHELL_SPEC, O_USE_ZPLUGINS]

theorem getBool_shell_spec (cmd : InitCommand) :
    ctx_get_bool (contextFrom cmd) O_INCLUDE_SHELL_SPEC = Except.ok (!cmd.no_shell_spec) := by
  rcases hd : cmd.description with _ | d <;>
    simp [contextFrom, ctxInsert, ctxGet, ctx_get_bool, hd,
      V_GITHUB_USER, V_PLUGIN_DISPLAY_NAME, V_PLUGIN_NAME, V_PLUGIN_VAR, V_SHORT_DESCRIPTION,
      O_INCLUDE_ALIASES, O_INCLUDE_BASH_WRAPPER, O_INCLUDE_BIN_DIR, O_INCLUDE_FUNCTIONS_DIR,
      O_INCLUDE_GIT_INIT, O_INCLUDE_GITHUB_DIR, O_INCLUDE_README, O_INCLUDE_SHELL_CHECK,
      O_INCLUDE_SHELL_SPEC, O_USE_ZPLUGINS]

theorem getBool_use_zplugins (cmd : InitCommand) :
    ctx_get_bool (contextFrom cmd) O_USE_ZPLUGINS = Except.ok cmd.use_zplugins := by
  rcases hd : cmd.description with _ | d <;>
    simp [contextFrom, ctxInsert, ctxGet, ctx_get_bool, hd,
      V_GITHUB_USER, V_PLUGIN_DISPLAY_NAME, V_PLUGIN_NAME, V_PLUGIN_VAR, V_SHORT_DESCRIPTION,
      O_INCLUDE_ALIASES, O_INCLUDE_BASH_WRAPPER, O_INCLUDE_BIN_DIR, O_INCLUDE_FUNCTIONS_DIR,
      O_INCLUDE_GIT_INIT, O_INCLUDE_GITHUB_DIR, O_INCLUDE_README, O_INCLUDE_SHELL_CHECK,
      O_INCLUDE_SHELL_SPEC, O_USE_ZPLUGINS]

theorem getStr_plugin_name (cmd : InitCommand) :
    ctx_get_str (contextFrom cmd) V_PLUGIN_NAME =
      Except.ok (replaceDashUnderscore cmd.name.val) := by
  rcases hd : cmd.description with _ | d <;>
    simp [contextFrom, ctxInsert, ctxGet, ctx_get_str, hd,
      V_GITHUB_USER, V_PLUGIN_DISPLAY_NAME, V_PLUGIN_NAME, V_PLUGIN_VAR, V_SHORT_DESCRIPTION,
      O_INCLUDE_ALIASES, O_INCLUDE_BASH_WRAPPER, O_INCLUDE_BIN_DIR, O_INCLUDE_FUNCTIONS_DIR,
      O_INCLUDE_GIT_INIT, O_INCLUDE_GITHUB_DIR, O_INCLUDE_README, O_INCLUDE_SHELL_CHECK,
      O_INCLUDE_SHELL_SPEC, O_USE_ZPLUGINS]

/-- Claim C8: for every identifier, the derived names in the template
context satisfy: the display name is the identifier as typed, the
normalized name is the display name with every `-` replaced by `_`,
and the shout-case variable name is the normalized name upper-cased. -/
theorem c8_derived_names (cmd : InitCommand) :
    ctxGet (contextFrom cmd) V_PLUGIN_DISPLAY_NAME = some (TValue.str cmd.name.val) ∧
    ctxGet (contextFrom cmd) V_PLUGIN_NAME =
      some (TValue.str (replaceDashUnderscore cmd.name.val)) ∧
    ctxGet (contextFrom cmd) V_PLUGIN_VAR =
      some (TValue.str (toAsciiUppercase (replaceDashUnderscore cmd.name.val))) := by
  rcases hd : cmd.description with _ | d <;>
    simp [contextFrom, ctxInsert, ctxGet, hd,
      V_GITHUB_USER, V_PLUGIN_DISPLAY_NAME, V_PLUGIN_NAME, V_PLUGIN_VAR, V_SHORT_DESCRIPTION,
      O_INCLUDE_ALIASES, O_INCLUDE_BASH_WRAPPER, O_INCLUDE_BIN_DIR, O_INCLUDE_FUNCTIONS_DIR,
      O_INCLUDE_GIT_INIT, O_INCLUDE_GITHUB_DIR, O_INCLUDE_README, O_INCLUDE_SHELL_CHECK,
      O_INCLUDE_SHELL_SPEC, O_USE_ZPLUGINS]

/-- Witness for C8 at the identifier `"my-plugin"`: the normalized name is
`"my_plugin"` and the shout name is `"MY_PLUGIN"`. -/
theorem c8_derived_names_witness :
    ctxGet (contextFrom sampleCmd) V_PLUGIN_NAME = some (TValue.str "my_plugin") ∧
    ctxGet (contextFrom sampleCmd) V_PLUGIN_VAR = some (TValue.str "MY_PLUGIN") :=
  ⟨((c8_derived_names sampleCmd).2.1).trans
     (congrArg (fun s => some (TValue.str s)) (by decide)),
   ((c8_derived_names sampleCmd).2.2).trans
     (congrArg (fun s => some (TValue.str s)) (by decide))⟩

/-- Claim C9: every key the orchestrator looks up — the `plugin_name`
string key and the ten boolean feature keys — is present in the context
built from an `InitCommand` with the expected type and value, so the
"Missing or invalid context key" error branch of the accessors is
unreachable on such contexts. -/
theorem c9_context_complete (cmd : InitCommand) :
    ctx_get_str (contextFrom cmd) V_PLUGIN_NAME =
      Except.ok (replaceDashUnderscore cmd.name.val) ∧
    ctx_get_bool (contextFrom cmd) O_INCLUDE_ALIASES = Except.ok (!cmd.no_aliases) ∧
    ctx_get_bool (contextFrom cmd) O_INCLUDE_BASH_WRAPPER = Except.ok cmd.add_bash_wrapper ∧
    ctx_get_bool (contextFrom cmd) O_INCLUDE_BIN_DIR = Except.ok cmd.add_bin_dir ∧
    ctx_get_bool (contextFrom cmd) O_INCLUDE_FUNCTIONS_DIR = Except.ok (!cmd.no_functions_dir) ∧
    ctx_get_bool (contextFrom cmd) O_INCLUDE_GIT_INIT = Except.ok (!cmd.no_git_init) ∧
    ctx_get_bool (contextFrom cmd) O_INCLUDE_GITHUB_DIR = Except.ok (!cmd.no_github_dir) ∧
    ctx_get_bool (contextFrom cmd) O_INCLUDE_README = Except.ok (!cmd.no_readme) ∧
    ctx_get_bool (contextFrom cmd) O_INCLUDE_SHELL_CHECK = Except.ok (!cmd.no_shell_check) ∧
    ctx_get_bool (contextFrom cmd) O_INCLUDE_SHELL_SPEC = Except.ok (!cmd.no_shell_spec) ∧
    ctx_get_bool (contextFrom cmd) O_USE_ZPLUGINS = Except.ok cmd.use_zplugins :=
  ⟨getStr_plugin_name cmd, getBool_aliases cmd, getBool_bash_wrapper cmd,
   getBool_bin_dir cmd, getBool_functions_dir cmd, getBool_git_init cmd,
   getBool_github_dir cmd, getBool_readme cmd, getBool_shell_check cmd,
   getBool_shell_spec cmd, getBool_use_zplugins cmd⟩

/-- Witness for C9 at a concrete options record. -/
theorem c9_context_complete_witness :
    ctx_get_str (contextFrom sampleCmd) V_PLUGIN_NAME = Except.ok "my_plugin" ∧
    ctx_get_bool (contextFrom sampleCmd) O_INCLUDE_GIT_INIT = Except.ok false :=
  ⟨((c9_context_complete sampleCmd).1).trans (congrArg Except.ok (by decide)),
   ((c9_context_complete sampleCmd).2.2.2.2.2.1).trans (congrArg Except.ok (by decide))⟩

-- ------------------------------------------------------------------
-- Helper lemmas about the filesystem predicates
-- ------------------------------------------------------------------

theorem pathExists_true_iff (fs : FileSys) (p : Path) :
    fs.pathExists p = true ↔ ∃ n, fs.lookup p = some n := by
  unfold FileSys.pathExists
  rcases fs.lookup p <;> simp

theorem pathExists_false_iff (fs : FileSys) (p : Path) :
    fs.pathExists p = false ↔ fs.lookup p = none := by
  unfold FileSys.pathExists
  rcases fs.lookup p <;> simp

theorem isDir_true_iff (fs : FileSys) (p : Path) :
    fs.isDir p = true ↔ fs.lookup p = some FsNode.dir := by
  unfold FileSys.isDir
  rcases fs.lookup p with _ | n
  · simp
  · rcases n <;> simp

theorem isFile_true_iff (fs : FileSys) (p : Path) :
    fs.isFile p = true ↔ ∃ c, fs.lookup p = some (FsNode.file c) := by
  unfold FileSys.isFile
  rcases fs.lookup p with _ | n
  · simp
  · rcases n <;> simp

-- ------------------------------------------------------------------
-- Concrete filesystems and a concrete render engine for witnesses
-- ------------------------------------------------------------------

/-- A filesystem whose path `p` holds a regular file. -/
def fsWithFile : FileSys := ⟨[(["p"], FsNode.file "x")]⟩

/-- A filesystem whose path `q` holds a directory. -/
def fsWithDir : FileSys := ⟨[(["q"], FsNode.dir)]⟩

/-- A concrete render engine that always succeeds, tagging the template
body; stands in for tera rendering the static template constants. -/
def okEngine : RenderEngine := fun t _ => Except.ok ("rendered:" ++ t)

-- ------------------------------------------------------------------
-- Claims C10 and C4
-- ------------------------------------------------------------------

/-- Claim C10: overwrite only permits same-kind replacement.  A
directory-creation step whose target exists as a regular file fails with
`TargetExists` even under `force`, and a file-write step whose target
exists as a directory fails with `TargetExists` even under `force`. -/
theorem c10_overwrite_kind_check (fs : FileSys) (p : Path) (rendr : RenderEngine)
    (ctx : Context) (t : String) :
    (fs.isFile p = true →
      make_directory p true fs = Except.error (Error.TargetExistsError p)) ∧
    (fs.isDir p = true →
      render_template rendr ctx t p true fs = Except.error (Error.TargetExistsError p)) := by
  constructor
  · intro h
    obtain ⟨c, hl⟩ := (isFile_true_iff fs p).mp h
    simp [make_directory, FileSys.pathExists, FileSys.isDir, hl]
  · intro h
    have hl := (isDir_true_iff fs p).mp h
    simp [render_template, FileSys.pathExists, FileSys.isFile, hl]

/-- Witness for C10: a file at the target defeats forced directory
creation, and a directory at the target defeats forced file rendering. -/
theorem c10_overwrite_kind_check_witness :
    make_directory ["p"] true fsWithFile = Except.error (Error.TargetExistsError ["p"]) ∧
    render_template okEngine [] T_README ["q"] true fsWithDir =
      Except.error (Error.TargetExistsError ["q"]) :=
  ⟨(c10_overwrite_kind_check fsWithFile ["p"] okEngine [] T_README).1 rfl,
   (c10_overwrite_kind_check fsWithDir ["q"] okEngine [] T_README).2 rfl⟩

/-- Claim C4, counterexample: it is not true that an existing target plus
`overwrite = true` always lets the step succeed — `make_directory` on a
path that exists as a regular file fails with `TargetExists` despite
`force = true`. -/
theorem c4_counterexample :
    ¬ (∀ (fs : FileSys) (p : Path), fs.pathExists p = true →
        ∃ fs2, make_directory p true fs = Except.ok fs2) := by
  intro h
  obtain ⟨fs2, h2⟩ := h fsWithFile ["p"] rfl
  have hmd : make_directory ["p"] true fsWithFile =
      Except.error (Error.TargetExistsError ["p"]) := rfl
  rw [hmd] at h2
  exact nomatch h2

/-- Claim C4 as amended: before creating a directory or writing a file the
target's existence is checked; if it exists and overwrite is false the
step fails with `TargetExists` carrying the path; if it exists *with the
step's own kind* and overwrite is true the step proceeds and
replaces/reuses the path; if it does not exist the step proceeds
normally.  (The render success cases assume the engine renders the
template successfully.) -/
theorem c4_conflict_policy (fs : FileSys) (p : Path) (force : Bool)
    (rendr : RenderEngine) (ctx : Context) (t out : String)
    (hr : rendr t ctx = Except.ok out) :
    (fs.pathExists p = true →
      make_directory p false fs = Except.error (Error.TargetExistsError p)) ∧
    (fs.isDir p = true →
      make_directory p true fs = Except.ok (fs.mkdirAll p)) ∧
    (fs.pathExists p = false →
      make_directory p force fs = Except.ok (fs.mkdirAll p)) ∧
    (fs.pathExists p = true →
      render_template rendr ctx t p false fs = Except.error (Error.TargetExistsError p)) ∧
    (fs.isFile p = true →
      render_template rendr ctx t p true fs = Except.ok (fs.write p out)) ∧
    (fs.pathExists p = false →
      render_template rendr ctx t p force fs = Except.ok (fs.write p out)) := by
  refine ⟨fun h => ?_, fun h => ?_, fun h => ?_, fun h => ?_, fun h => ?_, fun h => ?_⟩
  · simp [make_directory, h]
  · have hl := (isDir_true_iff fs p).mp h
    simp [make_directory, FileSys.pathExists, FileSys.isDir, hl]
  · simp [make_directory, h]
  · simp [render_template, h, hr]
  · obtain ⟨c, hl⟩ := (isFile_true_iff fs p).mp h
    simp [render_template, FileSys.pathExists, FileSys.isFile, hl, hr]
  · simp [render_template, h, hr]

/-- Witness for C4 (amended): existing target without overwrite fails with
`TargetExists`; fresh target proceeds. -/
theorem c4_conflict_policy_witness :
    make_directory ["p"] false fsWithFile = Except.error (Error.TargetExistsError ["p"]) ∧
    make_directory ["p"] false FileSys.empty = Except.ok (FileSys.empty.mkdirAll ["p"]) :=
  ⟨(c4_conflict_policy fsWithFile ["p"] false okEngine [] T_README
      ("rendered:" ++ T_README) rfl).1 rfl,
   (c4_conflict_policy FileSys.empty ["p"] false okEngine [] T_README
      ("rendered:" ++ T_README) rfl).2.2.1 rfl⟩

-- ------------------------------------------------------------------
-- Scenario A: identifier "my-plugin", preset Minimal, overwrite false,
-- empty target (spec §8); shared by claims C5 and C6
-- ------------------------------------------------------------------

theorem lookupEntries_isSome_iff (l : List (Path × FsNode)) (p : Path) :
    (lookupEntries l p).isSome = true ↔ p ∈ l.map Prod.fst := by
  induction l with
  | nil => simp [lookupEntries]
  | cons e rest ih =>
    rcases e with ⟨q, n⟩
    by_cases he : q = p
    · subst he
      show (if q = q then some n else lookupEntries rest q).isSome = true ↔
        q ∈ q :: rest.map Prod.fst
      rw [if_pos rfl]
      exact ⟨fun _ => List.mem_cons_self q _, fun _ => rfl⟩
    · show (if q = p then some n else lookupEntries rest p).isSome = true ↔
        p ∈ q :: rest.map Prod.fst
      rw [if_neg he, ih]
      constructor
      · exact fun h => List.mem_cons_of_mem _ h
      · intro h
        rcases List.mem_cons.mp h with h | h
        · exact absurd h.symm he
        · exact h

theorem pathExists_iff_mem (fs : FileSys) (p : Path) :
    fs.pathExists p = true ↔ p ∈ fs.entries.map Prod.fst :=
  lookupEntries_isSome_iff fs.entries p

/-- The scenario-A command line: `init -t minimal my-plugin`. -/
def cmdA : InitCommand :=
  { force := false, template := some Template.Minimal, add_bin_dir := false,
    add_bash_wrapper := false, no_aliases := false, no_shell_check := false,
    no_functions_dir := false, no_git_init := false, no_github_dir := false,
    no_readme := false, no_shell_spec := false, gihub_user := "user",
    use_zplugins := false, description := none, name := { val := "my-plugin" } }

/-- The context for scenario A, after preset resolution. -/
def ctxA : Context := contextFrom cmdA.normalize

/-- Scenario A executed against an empty filesystem, with a succeeding
render engine and version-control capability. -/
def runA : FileSys × Except Error ExitCode :=
  init_new_plugin ctxA false okEngine (Except.ok ()) FileSys.empty

/-- The filesystem produced by scenario A. -/
def fsA : FileSys := runA.1

/-- The root directory produced for identifier "my-plugin". -/
def rootA : Path := ["zsh-my_plugin-plugin"]

/-- Claim C5, counterexample: scenario A's tree does *not* consist only of
the root, the version-control directory and the main plugin-source file —
the ignore file `.gitignore` is rendered into the root as well (git-init
is on under the Minimal preset, and the git-init step also renders the
ignore-file template). -/
theorem c5_counterexample :
    ¬ (∀ p : Path, fsA.pathExists p = true →
        (p = rootA ∨ p = rootA ++ [".git"] ∨ p = rootA ++ ["my_plugin.plugin.zsh"])) := by
  intro h
  have hg := h (rootA ++ [".gitignore"]) (by decide)
  exact absurd hg (by decide)

/-- Claim C5 as amended: scenario A (identifier "my-plugin", preset
Minimal, overwrite false, empty target) succeeds and produces the root
directory `zsh-my_plugin-plugin` containing exactly the version-control
directory, the rendered ignore file, and the main plugin-source file
`my_plugin.plugin.zsh` — no bin, functions, github, readme or
build-automation artifacts. -/
theorem c5_scenario_a :
    runA.2 = Except.ok ExitCode.SUCCESS ∧
    (∀ p : Path, fsA.pathExists p = true ↔
      (p = rootA ∨ p = rootA ++ [".git"] ∨ p = rootA ++ [".gitignore"] ∨
        p = rootA ++ ["my_plugin.plugin.zsh"])) ∧
    fsA.isDir rootA = true ∧
    fsA.isDir (rootA ++ [".git"]) = true ∧
    fsA.isFile (rootA ++ [".gitignore"]) = true ∧
    fsA.isFile (rootA ++ ["my_plugin.plugin.zsh"]) = true := by
  refine ⟨rfl, fun p => ?_, by decide, by decide, by decide, by decide⟩
  rw [pathExists_iff_mem]
  have he : fsA.entries.map Prod.fst =
      [rootA ++ ["my_plugin.plugin.zsh"], rootA ++ [".gitignore"],
       rootA ++ [".git"], rootA, rootA] := by decide
  rw [he]
  simp only [List.mem_cons, List.not_mem_nil, or_false]
  tauto

/-- Witness for C5 (amended), reading off one instance of the tree
characterization: the ignore file exists in scenario A's output. -/
theorem c5_scenario_a_witness : fsA.pathExists (rootA ++ [".gitignore"]) = true :=
  ((c5_scenario_a).2.1 (rootA ++ [".gitignore"])).mpr (Or.inr (Or.inr (Or.inl rfl)))

/-- Claim C6: re-running scenario A's generation without overwrite against
the already-created root fails with `TargetExists` carrying the root path,
on the very first step of the plan, and leaves the filesystem exactly as
it was (nothing rolled back, no later step executed). -/
theorem c6_rerun_fails_on_root :
    init_new_plugin ctxA false okEngine (Except.ok ()) fsA =
      (fsA, Except.error (Error.TargetExistsError rootA)) := rfl

-- ------------------------------------------------------------------
-- String disequalities used to evaluate path lookups with a symbolic
-- plugin name
-- ------------------------------------------------------------------

theorem string_append_ne_of_getLast (n s t : String) (hs : s.data ≠ [])
    (h : s.data.getLast? ≠ t.data.getLast?) : (n ++ s = t) ↔ False := by
  constructor
  · intro heq
    apply h
    calc s.data.getLast? = (n.data ++ s.data).getLast? :=
          (List.getLast?_append_of_ne_nil _ hs).symm
      _ = (n ++ s).data.getLast? := by rw [String.data_append]
      _ = t.data.getLast? := by rw [heq]
  · exact False.elim

theorem string_ne_append_of_getLast (n s t : String) (hs : s.data ≠ [])
    (h : s.data.getLast? ≠ t.data.getLast?) : (t = n ++ s) ↔ False :=
  ⟨fun heq => (string_append_ne_of_getLast n s t hs h).mp heq.symm, False.elim⟩

theorem string_append_inj_ne (n a b : String) (h : a.data ≠ b.data) :
    (n ++ a = n ++ b) ↔ False := by
  constructor
  · intro heq
    apply h
    have hd : (n ++ a).data = (n ++ b).data := by rw [heq]
    rw [String.data_append, String.data_append] at hd
    exact List.append_cancel_left hd
  · exact False.elim

theorem neA1 (n : String) : (n ++ ".bash" = ".git") ↔ False :=
  string_append_ne_of_getLast n ".bash" ".git" (by decide) (by decide)
theorem neA2 (n : String) : (n ++ ".bash" = ".gitignore") ↔ False :=
  string_append_ne_of_getLast n ".bash" ".gitignore" (by decide) (by decide)
theorem neA3 (n : String) : (n ++ ".bash" = ".github") ↔ False :=
  string_append_ne_of_getLast n ".bash" ".github" (by decide) (by decide)
theorem neA4 (n : String) : (n ++ ".bash" = "bin") ↔ False :=
  string_append_ne_of_getLast n ".bash" "bin" (by decide) (by decide)
theorem neA5 (n : String) : (n ++ ".bash" = "functions") ↔ False :=
  string_append_ne_of_getLast n ".bash" "functions" (by decide) (by decide)
theorem neA6 (n : String) : (n ++ ".bash" = "Makefile") ↔ False :=
  string_append_ne_of_getLast n ".bash" "Makefile" (by decide) (by decide)
theorem neA7 (n : String) : (n ++ ".bash" = "README.md") ↔ False :=
  string_append_ne_of_getLast n ".bash" "README.md" (by decide) (by decide)
theorem neB1 (n : String) : (".git" = n ++ ".bash") ↔ False :=
  string_ne_append_of_getLast n ".bash" ".git" (by decide) (by decide)
theorem neB2 (n : String) : (".gitignore" = n ++ ".bash") ↔ False :=
  string_ne_append_of_getLast n ".bash" ".gitignore" (by decide) (by decide)
theorem neB3 (n : String) : (".github" = n ++ ".bash") ↔ False :=
  string_ne_append_of_getLast n ".bash" ".github" (by decide) (by decide)
theorem neB4 (n : String) : ("bin" = n ++ ".bash") ↔ False :=
  string_ne_append_of_getLast n ".bash" "bin" (by decide) (by decide)
theorem neB5 (n : String) : ("functions" = n ++ ".bash") ↔ False :=
  string_ne_append_of_getLast n ".bash" "functions" (by decide) (by decide)
theorem neB6 (n : String) : ("Makefile" = n ++ ".bash") ↔ False :=
  string_ne_append_of_getLast n ".bash" "Makefile" (by decide) (by decide)
theorem neB7 (n : String) : ("README.md" = n ++ ".bash") ↔ False :=
  string_ne_append_of_getLast n ".bash" "README.md" (by decide) (by decide)
theorem neC1 (n : String) : (n ++ ".plugin.zsh" = ".git") ↔ False :=
  string_append_ne_of_getLast n ".plugin.zsh" ".git" (by decide) (by decide)
theorem neC2 (n : String) : (n ++ ".plugin.zsh" = ".gitignore") ↔ False :=
  string_append_ne_of_getLast n ".plugin.zsh" ".gitignore" (by decide) (by decide)
theorem neC3 (n : String) : (n ++ ".plugin.zsh" = ".github") ↔ False :=
  string_append_ne_of_getLast n ".plugin.zsh" ".github" (by decide) (by decide)
theorem neC4 (n : String) : (n ++ ".plugin.zsh" = "bin") ↔ False :=
  string_append_ne_of_getLast n ".plugin.zsh" "bin" (by decide) (by decide)
theorem neC5 (n : String) : (n ++ ".plugin.zsh" = "functions") ↔ False :=
  string_append_ne_of_getLast n ".plugin.zsh" "functions" (by decide) (by decide)
theorem neC6 (n : String) : (n ++ ".plugin.zsh" = "Makefile") ↔ False :=
  string_append_ne_of_getLast n ".plugin.zsh" "Makefile" (by decide) (by decide)
theorem neC7 (n : String) : (n ++ ".plugin.zsh" = "README.md") ↔ False :=
  string_append_ne_of_getLast n ".plugin.zsh" "README.md" (by decide) (by decide)
theorem neD1 (n : String) : (".git" = n ++ ".plugin.zsh") ↔ False :=
  string_ne_append_of_getLast n ".plugin.zsh" ".git" (by decide) (by decide)
theorem neD2 (n : String) : (".gitignore" = n ++ ".plugin.zsh") ↔ False :=
  string_ne_append_of_getLast n ".plugin.zsh" ".gitignore" (by decide) (by decide)
theorem neD3 (n : String) : (".github" = n ++ ".plugin.zsh") ↔ False :=
  string_ne_append_of_getLast n ".plugin.zsh" ".github" (by decide) (by decide)
theorem neD4 (n : String) : ("bin" = n ++ ".plugin.zsh") ↔ False :=
  string_ne_append_of_getLast n ".plugin.zsh" "bin" (by decide) (by decide)
theorem neD5 (n : String) : ("functions" = n ++ ".plugin.zsh") ↔ False :=
  string_ne_append_of_getLast n ".plugin.zsh" "functions" (by decide) (by decide)
theorem neD6 (n : String) : ("Makefile" = n ++ ".plugin.zsh") ↔ False :=
  string_ne_append_of_getLast n ".plugin.zsh" "Makefile" (by decide) (by decide)
theorem neD7 (n : String) : ("README.md" = n ++ ".plugin.zsh") ↔ False :=
  string_ne_append_of_getLast n ".plugin.zsh" "README.md" (by decide) (by decide)
theorem neE1 (n : String) : (n ++ ".bash" = n ++ ".plugin.zsh") ↔ False :=
  string_append_inj_ne n ".bash" ".plugin.zsh" (by decide)
theorem neE2 (n : String) : (n ++ ".plugin.zsh" = n ++ ".bash") ↔ False :=
  string_append_inj_ne n ".plugin.zsh" ".bash" (by decide)

-- ------------------------------------------------------------------
-- Reduction lemmas for the generation monad (used to evaluate the
-- orchestrator symbolically)
-- ------------------------------------------------------------------

theorem pureG_apply {α : Type} (a : α) (fs : FileSys) : pureG a fs = (fs, Except.ok a) := rfl

theorem bindG_liftRes_ok {α β : Type} (a : α) (k : α → GenM β) (fs : FileSys) :
    bindG (liftRes (Except.ok a)) k fs = k a fs := rfl

theorem bindG_pureG {α β : Type} (a : α) (k : α → GenM β) (fs : FileSys) :
    bindG (pureG a) k fs = k a fs := rfl

theorem bindG_liftFs {β : Type} (f : FileSys → Except Error FileSys)
    (k : Unit → GenM β) (fs : FileSys) :
    bindG (liftFs f) k fs =
      match f fs with
      | Except.ok fs2 => k () fs2
      | Except.error e => (fs, Except.error e) := by
  unfold bindG liftFs
  rcases f fs <;> rfl

theorem bindG_bindG {α β γ : Type} (m : GenM α) (k2 : α → GenM β) (k : β → GenM γ)
    (fs : FileSys) :
    bindG (bindG m k2) k fs = bindG m (fun a => bindG (k2 a) k) fs := by
  unfold bindG
  rcases m fs with ⟨fs2, r⟩
  rcases r <;> rfl

theorem bindG_ite_apply {α β : Type} {c : Prop} [Decidable c] (m1 m2 : GenM α)
    (k : α → GenM β) (fs : FileSys) :
    bindG (if c then m1 else m2) k fs = if c then bindG m1 k fs else bindG m2 k fs := by
  by_cases h : c <;> simp [h]

theorem fst_pathExists_ite {α : Type} {c : Prop} [Decidable c]
    (a b : FileSys × Except Error α) (q : Path) :
    ((if c then a else b).1).pathExists q =
      if c then (a.1).pathExists q else (b.1).pathExists q := by
  by_cases h : c <;> simp [h]

theorem fst_entries_ite {α : Type} {c : Prop} [Decidable c]
    (a b : FileSys × Except Error α) :
    ((if c then a else b).1).entries = if c then (a.1).entries else (b.1).entries := by
  by_cases h : c <;> simp [h]

theorem lookupEntries_ite {c : Prop} [Decidable c]
    (l1 l2 : List (Path × FsNode)) (p : Path) :
    lookupEntries (if c then l1 else l2) p =
      if c then lookupEntries l1 p else lookupEntries l2 p := by
  by_cases h : c <;> simp [h]

theorem isSome_ite {α : Type} {c : Prop} [Decidable c] (o1 o2 : Option α) :
    (if c then o1 else o2).isSome = if c then o1.isSome else o2.isSome := by
  by_cases h : c <;> simp [h]

/-- A render engine built from a total rendering function: the engine
always succeeds (as tera does on the fixed static template bodies). -/
def okOf (f : String → Context → String) : RenderEngine := fun t c => Except.ok (f t c)

/-- Claim C7: for every configuration, running the orchestrator against an
empty target (with a succeeding render engine and version-control
capability) produces the build-automation file `Makefile` in the root
directory if and only if at least one of the shell-check and shell-spec
toggles is enabled. -/
theorem c7_makefile_iff_check_or_spec (cmd : InitCommand)
    (f : String → Context → String) (force : Bool) :
    ((init_new_plugin (contextFrom cmd) force (okOf f) (Except.ok ())
        FileSys.empty).1.pathExists
      ["zsh-" ++ replaceDashUnderscore cmd.name.val ++ "-plugin", P_MAKEFILE])
      = (!cmd.no_shell_check || !cmd.no_shell_spec) := by
  simp [init_new_plugin, okOf,
    getStr_plugin_name, getBool_git_init, getBool_github_dir, getBool_bin_dir,
    getBool_functions_dir, getBool_shell_check, getBool_shell_spec,
    getBool_bash_wrapper, getBool_readme, getBool_use_zplugins,
    pureG_apply, bindG_liftRes_ok, bindG_pureG, bindG_liftFs, bindG_bindG,
    bindG_ite_apply, fst_pathExists_ite, fst_entries_ite, lookupEntries_ite, isSome_ite,
    make_directory, make_repository, render_template,
    FileSys.pathExists, FileSys.lookup, FileSys.isDir, FileSys.isFile,
    FileSys.mkdirAll, FileSys.set, FileSys.write, FileSys.empty, mkdirGo,
    lookupEntries, P_MAKEFILE, P_BIN_DIR, P_DOT_GITIGNORE, P_DOT_KEEP,
    P_FUNCTIONS_DIR, P_GITHUB_DIR, P_README, P_SHELL_YML, P_WORKFLOWS_DIR,
    neA1, neA2, neA3, neA4, neA5, neA6, neA7, neB1, neB2, neB3, neB4, neB5, neB6, neB7,
    neC1, neC2, neC3, neC4, neC5, neC6, neC7, neD1, neD2, neD3, neD4, neD5, neD6, neD7,
    neE1, neE2]

/-- Witness for C7: with both shell-check and shell-spec disabled, no
Makefile is produced. -/
theorem c7_makefile_iff_check_or_spec_witness :
    ((init_new_plugin (contextFrom sampleCmd) false (okOf (fun t _ => t)) (Except.ok ())
        FileSys.empty).1.pathExists
      ["zsh-" ++ replaceDashUnderscore sampleCmd.name.val ++ "-plugin", P_MAKEFILE])
      = false :=
  (c7_makefile_iff_check_or_spec sampleCmd (fun t _ => t) false).trans (by decide)

end ZshPlugin
